import Mathlib

/-
Shallow embedding of the chott actor simulation core
(src/actor.rs, src/environment.rs, src/pages.rs).

Rust u8 fatigue is modelled as Nat with explicit saturation at 255
(saturating_add) and Nat truncated subtraction (saturating_sub).
Randomness (rand::random, rng.random_range) is modelled by explicit
parameters: a Rand record carries the drawn values, so theorems
quantify over every possible random outcome.
HashMap iteration is modelled by association lists in iteration order.
-/

namespace Chott

/-- PageId is a newtype over String (src/pages.rs). -/
abbrev PageId := String

/-- PageConnection from src/pages.rs: a named edge to a target page. -/
structure PageConnection where
  name : String
  target : PageId
deriving DecidableEq, Repr

/-- Page from src/pages.rs (metadata map modelled as an association list). -/
structure Page where
  id : PageId
  template : String
  connections : List PageConnection
  title : String
  description : String
  metadata : List (String × String)
deriving DecidableEq, Repr

/-- PageGraph = HashMap<PageId, Page>, modelled as an association list. -/
abbrev PageGraph := List (PageId × Page)

/-- ActorFlag from src/actor.rs. -/
inductive ActorFlag where
  | Organic
  | CanAttack
  | CanSpeak
  | Nocturnal
  | Predatory
deriving DecidableEq, Repr

/-- ActorState from src/actor.rs: health is i32, fatigue is u8 (kept in
[0, 255] by the saturating arithmetic of apply_action). -/
structure ActorState where
  health : Int
  awake : Bool
  fatigue : Nat
  target : Option String
deriving DecidableEq, Repr

/-- Actor from src/actor.rs. -/
structure Actor where
  id : String
  name : String
  location : PageId
  state : ActorState
  flags : List ActorFlag
deriving DecidableEq, Repr

/-- ActorAction from src/actor.rs. -/
inductive ActorAction where
  | Idle
  | MoveTo (page_id : PageId)
  | Attack (actor_id : String)
  | Sleep
  | WakeUp
deriving DecidableEq, Repr

/-- WorldTime from src/environment.rs (the source field for minutes is
named with a leading underscore and is unused). -/
structure WorldTime where
  hour : Nat
  minute : Nat
deriving DecidableEq, Repr

/-- WorldTime::is_daytime: true when 6 <= hour < 18. -/
def WorldTime.is_daytime (t : WorldTime) : Bool :=
  decide (6 ≤ t.hour) && decide (t.hour < 18)

/-- WorldTime::is_night: the complement of is_daytime. -/
def WorldTime.is_night (t : WorldTime) : Bool :=
  !t.is_daytime

/-- Outcomes of the random draws made inside Actor::default_behavior:
roll models the rand::random u8 draw (move happens when roll % 100 == 0),
idx models the rng.random_range draw over the connection indices
(random_range(0..len) yields a value below len; an arbitrary Nat taken
modulo len ranges over exactly those values). -/
structure Rand where
  roll : Nat
  idx : Nat
deriving DecidableEq, Repr

/-- Actor::has_flag: membership test on the flags vector. -/
def Actor.has_flag (a : Actor) (flag : ActorFlag) : Bool :=
  a.flags.contains flag

/-- Actor::default_behavior: with probability 1/100 (roll % 100 == 0) try
to move through a random outgoing connection of the current page;
otherwise, or when the page is missing from the graph or has no
connections, Idle. -/
def Actor.default_behavior (a : Actor) (page_graph : PageGraph) (r : Rand) : ActorAction :=
  let move_chance := r.roll % 100 == 0
  if move_chance then
    match page_graph.lookup a.location with
    | some page =>
      if page.connections.isEmpty then
        ActorAction.Idle
      else
        match page.connections.get? (r.idx % page.connections.length) with
        | some conn => ActorAction.MoveTo conn.target
        | none => ActorAction.Idle
    | none => ActorAction.Idle
  else
    ActorAction.Idle

/-- Actor::decide from src/actor.rs: fatigue override, then the pushed
action list (wake rules, predation, default behavior), first pushed
action wins, Idle as fallback. -/
def Actor.decide (a : Actor) (world_time : WorldTime) (local_actors : List Actor)
    (page_graph : PageGraph) (r : Rand) : ActorAction :=
  let fatigue_threshold := 20
  if a.state.fatigue ≥ fatigue_threshold then
    -- Too tired: sleep whether currently awake or already sleeping.
    if a.state.awake then ActorAction.Sleep else ActorAction.Sleep
  else
    let actions : List ActorAction := []
    let is_nocturnal := a.has_flag ActorFlag.Nocturnal
    let is_awake := a.state.awake
    let actions :=
      if is_nocturnal && world_time.is_night && !is_awake then
        actions ++ [ActorAction.WakeUp]
      else actions
    let actions :=
      if !is_nocturnal && world_time.is_daytime && !is_awake then
        actions ++ [ActorAction.WakeUp]
      else actions
    let actions :=
      if a.has_flag ActorFlag.Predatory && is_awake then
        match local_actors.find? (fun b =>
            b.location == a.location && b.has_flag ActorFlag.Organic && b.id != a.id) with
        | some target => actions ++ [ActorAction.Attack target.id]
        | none => actions
      else actions
    let actions :=
      if actions.isEmpty && is_awake then
        actions ++ [a.default_behavior page_graph r]
      else actions
    actions.headD ActorAction.Idle

/-- Actor::apply_action from src/actor.rs: mutate this actor's state
according to the action (fatigue saturating at 0 and 255). -/
def Actor.apply_action (a : Actor) (action : ActorAction) : Actor :=
  match action with
  | ActorAction.Idle =>
    if a.state.fatigue > 0 then
      { a with state := { a.state with fatigue := a.state.fatigue - 1 } }
    else a
  | ActorAction.MoveTo page_id =>
    { a with location := page_id,
             state := { a.state with fatigue := min (a.state.fatigue + 4) 255 } }
  | ActorAction.Attack _ =>
    { a with state := { a.state with fatigue := min (a.state.fatigue + 6) 255 } }
  | ActorAction.Sleep =>
    { a with state := { a.state with awake := false, fatigue := a.state.fatigue - 1 } }
  | ActorAction.WakeUp =>
    let a2 := { a with state := { a.state with awake := true } }
    if a2.state.fatigue > 2 then
      { a2 with state := { a2.state with fatigue := a2.state.fatigue - 2 } }
    else a2

/-- ActorMap = HashMap<String, Actor>, modelled as an association list in
iteration order. -/
abbrev ActorMap := List (String × Actor)

/-- Number of actors ActorManager::tick_some asks for:
1 + max(len / 10, 1) in the source. -/
def numToTick (n : Nat) : Nat :=
  1 + max (n / 10) 1

/-- Number of distinct actor ids actually selected each tick:
choose_multiple returns min(amount, population) distinct elements. -/
def selectedCount (n : Nat) : Nat :=
  min (numToTick n) n

/-- Co-located peers handed to decide in ActorManager::tick_some: the
location index is built over the entire population, the entry for the
deciding actor's location is filtered by oid != id, then ids are resolved
back through the map. Net effect: every actor of the map whose location
equals loc and whose key differs from id, in iteration order. -/
def localsFor (m : ActorMap) (id : String) (loc : PageId) : List Actor :=
  (m.filter (fun p => p.2.location == loc && p.1 != id)).map (fun p => p.2)

/-- Decide phase of ActorManager::tick_some: for each chosen id that is
present, decide against the pre-tick map and record (id, action). -/
def decideEvents (m : ActorMap) (chosen : List String) (world_time : WorldTime)
    (page_graph : PageGraph) (r : String → Rand) : List (String × ActorAction) :=
  chosen.filterMap (fun id =>
    match m.lookup id with
    | some actor =>
      some (id, actor.decide world_time (localsFor m id actor.location) page_graph (r id))
    | none => none)

/-- Apply one event: get_mut(id) followed by apply_action; entries whose
key differs from id are untouched. -/
def updateActor (m : ActorMap) (id : String) (action : ActorAction) : ActorMap :=
  m.map (fun p => if p.1 == id then (p.1, p.2.apply_action action) else p)

/-- Apply phase of ActorManager::tick_some: fold the collected events over
the live map. -/
def applyEvents (m : ActorMap) (events : List (String × ActorAction)) : ActorMap :=
  events.foldl (fun acc ev => updateActor acc ev.1 ev.2) m

/-- ActorManager::tick_some for a given random selection chosen and random
draws r: collect all decisions first, then apply them. -/
def tick_some (m : ActorMap) (chosen : List String) (world_time : WorldTime)
    (page_graph : PageGraph) (r : String → Rand) : ActorMap :=
  applyEvents m (decideEvents m chosen world_time page_graph r)

end Chott


namespace Chott

/- Helper lemmas shared by the claim theorems. -/

lemma default_behavior_ne_sleep (a : Actor) (pg : PageGraph) (r : Rand) :
    a.default_behavior pg r ≠ ActorAction.Sleep := by
  unfold Actor.default_behavior
  dsimp only
  split
  · split
    · split
      · simp
      · split <;> simp
    · simp
  · simp

lemma decide_sleep_of_ge (a : Actor) (wt : WorldTime) (locals : List Actor)
    (pg : PageGraph) (r : Rand) (h : 20 ≤ a.state.fatigue) :
    a.decide wt locals pg r = ActorAction.Sleep := by
  unfold Actor.decide
  simp [h]

lemma decide_ne_sleep_of_lt (a : Actor) (wt : WorldTime) (locals : List Actor)
    (pg : PageGraph) (r : Rand) (h : a.state.fatigue < 20) :
    a.decide wt locals pg r ≠ ActorAction.Sleep := by
  unfold Actor.decide
  rw [if_neg (by omega)]
  dsimp only
  cases hfind : List.find? (fun b =>
      b.location == a.location && b.has_flag ActorFlag.Organic && b.id != a.id) locals with
  | none =>
    simp only [hfind]
    repeat' split
    all_goals simp_all
    all_goals (intro hc; exact default_behavior_ne_sleep a pg r (by simpa using hc))
  | some tgt =>
    simp only [hfind]
    repeat' split
    all_goals simp_all
    all_goals (intro hc; exact default_behavior_ne_sleep a pg r (by simpa using hc))

/-- C1: for every actor with fatigue >= 20, decide returns Sleep regardless
of flags, awake state, world clock, co-located actors, and random outcome. -/
theorem decide_fatigue_override (a : Actor) (wt : WorldTime) (locals : List Actor)
    (pg : PageGraph) (r : Rand) (h : 20 ≤ a.state.fatigue) :
    a.decide wt locals pg r = ActorAction.Sleep :=
  decide_sleep_of_ge a wt locals pg r h

/-- Witness for C1: a concrete asleep actor with fatigue 25 decides Sleep. -/
theorem decide_fatigue_override_witness :
    20 ≤ (Actor.mk "t" "T" "p" (ActorState.mk 10 false 25 none) []).state.fatigue ∧
    (Actor.mk "t" "T" "p" (ActorState.mk 10 false 25 none) []).decide
      (WorldTime.mk 12 0) [] [] (Rand.mk 1 0) = ActorAction.Sleep :=
  ⟨by decide, decide_fatigue_override _ _ _ _ _ (by decide)⟩

/-- C10: decide returns Sleep if and only if the deciding actor's fatigue
is at least 20; below the threshold no combination of flags, awake state,
clock, co-located actors, or random outcome yields Sleep. -/
theorem decide_sleep_iff (a : Actor) (wt : WorldTime) (locals : List Actor)
    (pg : PageGraph) (r : Rand) :
    a.decide wt locals pg r = ActorAction.Sleep ↔ 20 ≤ a.state.fatigue := by
  constructor
  · intro hs
    by_contra hlt
    exact decide_ne_sleep_of_lt a wt locals pg r (by omega) hs
  · exact decide_sleep_of_ge a wt locals pg r

end Chott

namespace Chott

lemma lookup_updateActor_ne (m : ActorMap) (id j : String) (act : ActorAction)
    (hj : j ≠ id) : (updateActor m id act).lookup j = m.lookup j := by
  induction m with
  | nil => rfl
  | cons p rest ih =>
    rcases p with ⟨k, v⟩
    have hhead : updateActor ((k, v) :: rest) id act =
        (if (k == id) = true then (k, v.apply_action act) else (k, v)) ::
          updateActor rest id act := rfl
    rw [hhead]
    by_cases hjk : j = k
    · subst hjk
      have hki : (j == id) = false := by simp [hj]
      rw [if_neg (by simp [hki])]
      simp [List.lookup]
    · have hjkb : (j == k) = false := by simp [hjk]
      by_cases hki : (k == id) = true
      · rw [if_pos hki]
        simp [List.lookup, hjkb, ih]
      · rw [if_neg hki]
        simp [List.lookup, hjkb, ih]

/-- C4: apply_action on Attack adds exactly 6 fatigue (saturating at 255)
to the acting actor, leaves its awake flag, location and health unchanged,
and mutates no other actor in the map — in particular the target's entry
(any key other than the acting id) is untouched. -/
theorem apply_attack_frame (a : Actor) (tid : String) (m : ActorMap) (id : String) :
    (a.apply_action (ActorAction.Attack tid)).state.fatigue = min (a.state.fatigue + 6) 255 ∧
    (a.state.fatigue + 6 ≤ 255 →
      (a.apply_action (ActorAction.Attack tid)).state.fatigue = a.state.fatigue + 6) ∧
    (a.apply_action (ActorAction.Attack tid)).state.awake = a.state.awake ∧
    (a.apply_action (ActorAction.Attack tid)).location = a.location ∧
    (a.apply_action (ActorAction.Attack tid)).state.health = a.state.health ∧
    (∀ j, j ≠ id → (updateActor m id (ActorAction.Attack tid)).lookup j = m.lookup j) := by
  refine ⟨rfl, ?_, rfl, rfl, rfl, ?_⟩
  · intro hle
    unfold Actor.apply_action
    dsimp only
    omega
  · intro j hj
    exact lookup_updateActor_ne m id j _ hj

/-- Witness for C4: attacking from fatigue 5 yields fatigue 11, and the
target entry of a two-actor map is unchanged by the update. -/
theorem apply_attack_frame_witness :
    ((Actor.mk "a" "A" "p" (ActorState.mk 10 true 5 none) []).apply_action
      (ActorAction.Attack "b")).state.fatigue =
      (Actor.mk "a" "A" "p" (ActorState.mk 10 true 5 none) []).state.fatigue + 6 ∧
    (updateActor [("a", Actor.mk "a" "A" "p" (ActorState.mk 10 true 5 none) []),
                  ("b", Actor.mk "b" "B" "p" (ActorState.mk 7 true 0 none) [])] "a"
      (ActorAction.Attack "b")).lookup "b" =
      [("a", Actor.mk "a" "A" "p" (ActorState.mk 10 true 5 none) []),
       ("b", Actor.mk "b" "B" "p" (ActorState.mk 7 true 0 none) [])].lookup "b" :=
  ⟨(apply_attack_frame (Actor.mk "a" "A" "p" (ActorState.mk 10 true 5 none) []) "b" [] "a").2.1
      (by decide),
   (apply_attack_frame (Actor.mk "a" "A" "p" (ActorState.mk 10 true 5 none) []) "b"
      [("a", Actor.mk "a" "A" "p" (ActorState.mk 10 true 5 none) []),
       ("b", Actor.mk "b" "B" "p" (ActorState.mk 7 true 0 none) [])] "a").2.2.2.2.2 "b"
      (by decide)⟩

/-- C7: apply_action on WakeUp sets awake, leaves fatigue unchanged when it
is at most 2, and otherwise lowers it by exactly 2. -/
theorem apply_wakeup_spec (a : Actor) :
    (a.apply_action ActorAction.WakeUp).state.awake = true ∧
    (a.state.fatigue ≤ 2 →
      (a.apply_action ActorAction.WakeUp).state.fatigue = a.state.fatigue) ∧
    (2 < a.state.fatigue →
      (a.apply_action ActorAction.WakeUp).state.fatigue = a.state.fatigue - 2) := by
  unfold Actor.apply_action
  dsimp only
  refine ⟨?_, ?_, ?_⟩
  · split <;> rfl
  · intro hle
    rw [if_neg (by omega)]
  · intro hgt
    rw [if_pos (by omega)]

/-- Witness for C7: waking at fatigue 10 gives 8; waking at fatigue 2
leaves fatigue at 2. -/
theorem apply_wakeup_spec_witness :
    ((Actor.mk "w" "W" "p" (ActorState.mk 5 false 10 none) []).apply_action
      ActorAction.WakeUp).state.fatigue =
      (Actor.mk "w" "W" "p" (ActorState.mk 5 false 10 none) []).state.fatigue - 2 ∧
    ((Actor.mk "w" "W" "p" (ActorState.mk 5 false 2 none) []).apply_action
      ActorAction.WakeUp).state.fatigue =
      (Actor.mk "w" "W" "p" (ActorState.mk 5 false 2 none) []).state.fatigue :=
  ⟨(apply_wakeup_spec (Actor.mk "w" "W" "p" (ActorState.mk 5 false 10 none) [])).2.2 (by decide),
   (apply_wakeup_spec (Actor.mk "w" "W" "p" (ActorState.mk 5 false 2 none) [])).2.1 (by decide)⟩

lemma fatigue_iterate_idle (n : Nat) : ∀ (a : Actor),
    ((fun b => b.apply_action ActorAction.Idle)^[n] a).state.fatigue =
      a.state.fatigue - n := by
  induction n with
  | zero => intro a; simp
  | succ k ih =>
    intro a
    rw [Function.iterate_succ_apply, ih]
    unfold Actor.apply_action
    dsimp only
    split
    · dsimp only
      omega
    · omega

/-- C8: apply_action on Idle never increases fatigue, leaves awake and
location unchanged; applying Idle fatigue-many times drives fatigue to
exactly 0, and any further Idle applications keep it at 0. -/
theorem apply_idle_drains (a : Actor) (n : Nat) :
    (a.apply_action ActorAction.Idle).state.fatigue ≤ a.state.fatigue ∧
    (a.apply_action ActorAction.Idle).state.awake = a.state.awake ∧
    (a.apply_action ActorAction.Idle).location = a.location ∧
    ((fun b => b.apply_action ActorAction.Idle)^[a.state.fatigue] a).state.fatigue = 0 ∧
    (a.state.fatigue ≤ n →
      ((fun b => b.apply_action ActorAction.Idle)^[n] a).state.fatigue = 0) := by
  refine ⟨?_, ?_, ?_, ?_, ?_⟩
  · unfold Actor.apply_action
    dsimp only
    split
    · dsimp only; omega
    · omega
  · unfold Actor.apply_action
    dsimp only
    split <;> rfl
  · unfold Actor.apply_action
    dsimp only
    split <;> rfl
  · rw [fatigue_iterate_idle]
    omega
  · intro hn
    rw [fatigue_iterate_idle]
    omega

/-- Witness for C8: an actor with fatigue 3 reaches fatigue 0 after five
Idle applications. -/
theorem apply_idle_drains_witness :
    ((fun b => b.apply_action ActorAction.Idle)^[5]
      (Actor.mk "i" "I" "p" (ActorState.mk 9 true 3 none) [])).state.fatigue = 0 :=
  (apply_idle_drains (Actor.mk "i" "I" "p" (ActorState.mk 9 true 3 none) []) 5).2.2.2.2
    (by decide)

end Chott

namespace Chott

/-- C9: if the deciding actor's location is absent from the page graph, or
present with no outgoing connections, the default-movement rule yields
Idle for every random outcome (never a hard error). -/
theorem default_behavior_missing_idle (a : Actor) (pg : PageGraph) (r : Rand)
    (h : pg.lookup a.location = none ∨
      ∃ p, pg.lookup a.location = some p ∧ p.connections = []) :
    a.default_behavior pg r = ActorAction.Idle := by
  unfold Actor.default_behavior
  dsimp only
  rcases h with hnone | ⟨p, hp, hconn⟩
  · split
    · rw [hnone]
    · rfl
  · split
    · rw [hp]
      simp [hconn]
    · rfl

/-- Witness for C9: on the empty graph, a roll that passes the 1/100 move
check still produces Idle. -/
theorem default_behavior_missing_idle_witness :
    (Actor.mk "m" "M" "nowhere" (ActorState.mk 4 true 0 none) []).default_behavior
      [] (Rand.mk 0 0) = ActorAction.Idle :=
  default_behavior_missing_idle (Actor.mk "m" "M" "nowhere" (ActorState.mk 4 true 0 none) [])
    [] (Rand.mk 0 0) (Or.inl rfl)

/-- C6: an asleep actor below the fatigue threshold wakes when its
chronotype calls for it: non-Nocturnal during daytime (hour in [6,18)),
Nocturnal during night (the complement). -/
theorem decide_wake_transition (a : Actor) (wt : WorldTime) (locals : List Actor)
    (pg : PageGraph) (r : Rand)
    (hf : a.state.fatigue < 20) (hasleep : a.state.awake = false)
    (hcase : (a.has_flag ActorFlag.Nocturnal = false ∧ 6 ≤ wt.hour ∧ wt.hour < 18) ∨
             (a.has_flag ActorFlag.Nocturnal = true ∧ ¬(6 ≤ wt.hour ∧ wt.hour < 18))) :
    a.decide wt locals pg r = ActorAction.WakeUp := by
  unfold Actor.decide
  rw [if_neg (by omega)]
  dsimp only
  rcases hcase with ⟨hnoc, hd1, hd2⟩ | ⟨hnoc, hnight⟩
  · have hday : wt.is_daytime = true := by
      simp [WorldTime.is_daytime, hd1, hd2]
    simp [hnoc, hasleep, hday]
  · have hday : wt.is_daytime = false := by
      simp only [WorldTime.is_daytime, Bool.and_eq_false_iff, decide_eq_false_iff_not]
      omega
    have hnight2 : wt.is_night = true := by
      simp [WorldTime.is_night, hday]
    simp [hnoc, hasleep, hnight2]

/-- Witness for C6: a non-Nocturnal asleep actor at hour 12 wakes up, and a
Nocturnal asleep actor at hour 2 wakes up. -/
theorem decide_wake_transition_witness :
    (Actor.mk "d" "D" "p" (ActorState.mk 3 false 4 none) []).decide
      (WorldTime.mk 12 0) [] [] (Rand.mk 1 0) = ActorAction.WakeUp ∧
    (Actor.mk "n" "N" "p" (ActorState.mk 3 false 4 none) [ActorFlag.Nocturnal]).decide
      (WorldTime.mk 2 0) [] [] (Rand.mk 1 0) = ActorAction.WakeUp :=
  ⟨decide_wake_transition _ _ [] [] _ (by decide) (by decide) (Or.inl (by decide)),
   decide_wake_transition _ _ [] [] _ (by decide) (by decide) (Or.inr (by decide))⟩

lemma find?_full_eq (a : Actor) : ∀ (l : List Actor), (∀ b ∈ l, b.location = a.location) →
    l.find? (fun b =>
        b.location == a.location && b.has_flag ActorFlag.Organic && b.id != a.id) =
      l.find? (fun b => b.has_flag ActorFlag.Organic && b.id != a.id) := by
  intro l
  induction l with
  | nil => intro _; rfl
  | cons x xs ih =>
    intro h
    have hx : (x.location == a.location) = true := by
      simp [h x (by simp)]
    have hxs : ∀ b ∈ xs, b.location = a.location := fun b hb => h b (by simp [hb])
    cases hq : (x.has_flag ActorFlag.Organic && x.id != a.id) <;>
      simp [List.find?, hx, hq, ih hxs]

/-- C5: an awake actor below the fatigue threshold carrying the Predatory
flag attacks the first Organic non-self actor of the provided co-located
list. -/
theorem decide_predation (a : Actor) (wt : WorldTime) (locals : List Actor)
    (pg : PageGraph) (r : Rand) (tgt : Actor)
    (hf : a.state.fatigue < 20) (hawake : a.state.awake = true)
    (hpred : a.has_flag ActorFlag.Predatory = true)
    (hco : ∀ b ∈ locals, b.location = a.location)
    (htgt : locals.find? (fun b => b.has_flag ActorFlag.Organic && b.id != a.id) = some tgt) :
    a.decide wt locals pg r = ActorAction.Attack tgt.id := by
  unfold Actor.decide
  rw [if_neg (by omega)]
  dsimp only
  have hfind : locals.find? (fun b =>
      b.location == a.location && b.has_flag ActorFlag.Organic && b.id != a.id) = some tgt := by
    rw [find?_full_eq a locals hco, htgt]
  simp [hawake, hpred, hfind]

/-- Witness for C5: a predator co-located with one Organic actor attacks
exactly that actor. -/
theorem decide_predation_witness :
    (Actor.mk "a" "A" "loc1" (ActorState.mk 10 true 5 none) [ActorFlag.Predatory]).decide
      (WorldTime.mk 12 0)
      [Actor.mk "b" "B" "loc1" (ActorState.mk 10 true 0 none) [ActorFlag.Organic]]
      [] (Rand.mk 1 0) =
      ActorAction.Attack
        (Actor.mk "b" "B" "loc1" (ActorState.mk 10 true 0 none) [ActorFlag.Organic]).id :=
  decide_predation _ _ _ [] _ _ (by decide) (by decide) (by decide)
    (by intro b hb; fin_cases hb; rfl) (by decide)

/-- C2 counterexample: with a population of 10 the scheduler asks for
1 + max(1, 10 / 10) = 2 distinct actors, not max(1, floor(10 / 10)) = 1 as
the claim states. -/
theorem tick_selection_count_claim_false :
    selectedCount 10 ≠ max 1 (10 / 10) := by decide

/-- C2 amended: each tick selects exactly min(N, 1 + max(1, floor(N/10)))
distinct actors — never more than 1 + max(1, floor(N/10)), and at least 1
when N >= 1. -/
theorem tick_selection_count_amended (n : Nat) (h : 1 ≤ n) :
    selectedCount n = min n (1 + max 1 (n / 10)) ∧
    1 ≤ selectedCount n ∧
    selectedCount n ≤ 1 + max 1 (n / 10) := by
  unfold selectedCount numToTick
  refine ⟨?_, ?_, ?_⟩ <;>
    simp only [Nat.min_def, Nat.max_def] <;> split_ifs <;> omega

/-- Witness for C2 amended: evaluated at population 10. -/
theorem tick_selection_count_amended_witness :
    selectedCount 10 = min 10 (1 + max 1 (10 / 10)) ∧
    1 ≤ selectedCount 10 ∧
    selectedCount 10 ≤ 1 + max 1 (10 / 10) :=
  tick_selection_count_amended 10 (by decide)

end Chott

namespace Chott

lemma lookup_applyEvents_ne (events : List (String × ActorAction)) :
    ∀ (m : ActorMap) (j : String), (∀ e ∈ events, e.1 ≠ j) →
      (applyEvents m events).lookup j = m.lookup j := by
  induction events with
  | nil => intro m j _; rfl
  | cons e rest ih =>
    intro m j h
    have he : e.1 ≠ j := h e (by simp)
    have hrest : ∀ x ∈ rest, x.1 ≠ j := fun x hx => h x (by simp [hx])
    show (applyEvents (updateActor m e.1 e.2) rest).lookup j = m.lookup j
    rw [ih _ j hrest, lookup_updateActor_ne m e.1 j e.2 he.symm]

/-- C3: within a tick, the apply phase runs only after every decision has
been collected; each collected (id, action) pair was decided against the
pre-tick map (with co-location computed over the entire population), the
decisions of any segment of the chosen list are independent of the rest of
the selection, and actors with no collected event keep their pre-tick
entry. -/
theorem tick_two_phase (m : ActorMap) (chosen : List String) (wt : WorldTime)
    (pg : PageGraph) (r : String → Rand) :
    tick_some m chosen wt pg r = applyEvents m (decideEvents m chosen wt pg r) ∧
    (∀ id action, (id, action) ∈ decideEvents m chosen wt pg r →
      ∃ actor, m.lookup id = some actor ∧
        action = actor.decide wt (localsFor m id actor.location) pg (r id)) ∧
    (∀ pre post, decideEvents m (pre ++ post) wt pg r =
      decideEvents m pre wt pg r ++ decideEvents m post wt pg r) ∧
    (∀ j, (∀ e ∈ decideEvents m chosen wt pg r, e.1 ≠ j) →
      (tick_some m chosen wt pg r).lookup j = m.lookup j) := by
  refine ⟨rfl, ?_, ?_, ?_⟩
  · intro id action hmem
    unfold decideEvents at hmem
    rw [List.mem_filterMap] at hmem
    obtain ⟨i, _, hf⟩ := hmem
    cases hl : m.lookup i with
    | none => rw [hl] at hf; simp at hf
    | some actor =>
      rw [hl] at hf
      simp only [Option.some.injEq, Prod.mk.injEq] at hf
      obtain ⟨hid, hact⟩ := hf
      subst hid
      exact ⟨actor, hl, hact.symm⟩
  · intro pre post
    unfold decideEvents
    exact List.filterMap_append pre post _
  · intro j hj
    exact lookup_applyEvents_ne _ m j hj

/-- Witness for C3: in a one-actor map the collected Sleep event for id a
is exactly the decision of that actor against the pre-tick map. -/
theorem tick_two_phase_witness :
    ∃ actor,
      ([("a", Actor.mk "a" "A" "p" (ActorState.mk 10 false 25 none) [])].lookup "a" =
        some actor) ∧
      ActorAction.Sleep = actor.decide (WorldTime.mk 12 0)
        (localsFor [("a", Actor.mk "a" "A" "p" (ActorState.mk 10 false 25 none) [])] "a"
          actor.location) [] (Rand.mk 1 0) :=
  (tick_two_phase [("a", Actor.mk "a" "A" "p" (ActorState.mk 10 false 25 none) [])]
      ["a"] (WorldTime.mk 12 0) [] (fun _ => Rand.mk 1 0)).2.1
    "a" ActorAction.Sleep (by decide)

end Chott
